import Mathlib

/-!
Shallow embedding of `src/grig-debug.c` (the grig debug-message sink) and
verification of the specification's claims about it.

Strings are modelled as `List Char`; `printf`-style formatting is modelled by
taking the already-formatted message as input (the formatting itself is done
by the external GLib `g_strdup_vprintf`).  Wall-clock time
(`g_date_time_new_now_local`) is modelled as an explicit `GDateTime` input.
-/

/-- Modelled from the spec: the severity levels of hamlib's
`enum rig_debug_level_e` (`hamlib/rig.h` is an external dependency, not part
of this repository's sources).  The spec fixes `NONE = 0`, `ERR = 1`,
`WARN = 2`, `TRACE = 5`, with `VERBOSE` strictly between `WARN` and `TRACE`;
its exact value (here 4) is immaterial to every claim.  C enumerations are
plain machine integers, so levels are `Int`. -/
def RIG_DEBUG_NONE : Int := 0

/-- Modelled from the spec: severity level ERR (= 1). -/
def RIG_DEBUG_ERR : Int := 1

/-- Modelled from the spec: severity level WARN (= 2). -/
def RIG_DEBUG_WARN : Int := 2

/-- Modelled from the spec: severity level VERBOSE (between WARN and TRACE). -/
def RIG_DEBUG_VERBOSE : Int := 4

/-- Modelled from the spec: severity level TRACE (= 5), the top of the valid
range. -/
def RIG_DEBUG_TRACE : Int := 5

/-- Modelled from the spec: hamlib's success status code `RIG_OK` (= 0),
the "recognized ok status code" the callback returns to the collaborator. -/
def RIG_OK : Int := 0

/-- Modelled from the spec: `debug_msg_src_t` from `grig-debug.h` (the header
is not under `src/`); the source tag enumeration {NONE, EXTERNAL_LIBRARY,
APPLICATION}.  The order matches the indexing of `SRC_TO_STR` in
`grig-debug.c`. -/
inductive debug_msg_src_t where
  | MSG_SRC_NONE
  | MSG_SRC_HAMLIB
  | MSG_SRC_GRIG
  deriving DecidableEq, Repr

open debug_msg_src_t

/-- `SRC_TO_STR` from `grig-debug.c` line 60: the display names of the three
source tags, indexed by the enumeration value. -/
def SRC_TO_STR : debug_msg_src_t → List Char
  | MSG_SRC_NONE => "NONE".data
  | MSG_SRC_HAMLIB => "HAMLIB".data
  | MSG_SRC_GRIG => "GRIG".data

/-- Modelled from the spec: `GRIG_DEBUG_SEPARATOR` from `grig-debug.h` (not
under `src/`): the fixed separator string between record fields, `"|"` in the
spec's end-to-end example. -/
def GRIG_DEBUG_SEPARATOR : List Char := "|".data

/-- GLib `g_ascii_isspace`: space, tab, newline, vertical tab, form feed,
carriage return. -/
def g_ascii_isspace (c : Char) : Bool :=
  c == ' ' || c == '\t' || c == '\n' || c == Char.ofNat 11 ||
  c == Char.ofNat 12 || c == '\r'

/-- GLib `g_strchomp`: removes trailing whitespace from a string
(used at `grig-debug.c` lines 140 and 189). -/
def g_strchomp (s : List Char) : List Char :=
  (s.reverse.dropWhile g_ascii_isspace).reverse

/-- Splitting a string at every newline character, keeping empty segments;
the empty string yields the single empty segment. -/
def splitOnNl : List Char → List (List Char)
  | [] => [[]]
  | c :: rest =>
      if c = '\n' then [] :: splitOnNl rest
      else
        match splitOnNl rest with
        | [] => [[c]]
        | t :: ts => (c :: t) :: ts

/-- GLib `g_strsplit_set (msg, "\n", 0)` as used at `grig-debug.c` lines 143
and 192: splits at every newline, keeping empty segments, except that the
empty string yields the empty vector. -/
def g_strsplit_set (s : List Char) : List (List Char) :=
  if s = [] then [] else splitOnNl s

/-- The process-wide mutable state of `grig-debug.c`: the static variables
`dbglvl` (line 54) and `logfname` (line 56). -/
structure DebugState where
  dbglvl : Int
  logfname : Option (List Char)
  deriving DecidableEq, Repr

/-- The initial values of the static variables:
`dbglvl = RIG_DEBUG_NONE`, `logfname = NULL`. -/
def initial_state : DebugState :=
  { dbglvl := RIG_DEBUG_NONE, logfname := none }

/-- One record handed to `manage_debug_message`: a source tag, a severity
level and one line of message text. -/
structure DebugRecord where
  source : debug_msg_src_t
  debug_level : Int
  message : List Char
  deriving DecidableEq, Repr

/-- A local wall-clock date and time, as captured by
`g_date_time_new_now_local`. -/
structure GDateTime where
  year : Nat
  month : Nat
  day : Nat
  hour : Nat
  minute : Nat
  sec : Nat
  deriving DecidableEq, Repr

/-- A number printed in decimal and zero-padded to two digits, as the
`%m %d %H %M %S` conversions of `g_date_time_format` do. -/
def pad2 (n : Nat) : List Char :=
  if n < 10 then '0' :: Nat.toDigits 10 n else Nat.toDigits 10 n

/-- `g_date_time_format (tval, "%Y/%m/%d %H:%M:%S")` from
`grig-debug.c` line 244. -/
def g_date_time_format_ts (t : GDateTime) : List Char :=
  Nat.toDigits 10 t.year ++ "/".data ++ pad2 t.month ++ "/".data ++
  pad2 t.day ++ " ".data ++ pad2 t.hour ++ ":".data ++ pad2 t.minute ++
  ":".data ++ pad2 t.sec

/-- The `%d` conversion of `g_fprintf` applied to a C `int`. -/
def sprintf_d (n : Int) : List Char :=
  if n < 0 then '-' :: Nat.toDigits 10 n.natAbs else Nat.toDigits 10 n.natAbs

/-- `manage_debug_message` (`grig-debug.c` lines 237-257): formats the current
local time as `%Y/%m/%d %H:%M:%S` and writes to stderr the single
newline-terminated record
`time SEP source-name SEP level SEP message`.
The captured wall-clock time is passed in as `tval`; the returned string is
the text written to stderr. -/
def manage_debug_message (tval : GDateTime) (source : debug_msg_src_t)
    (debug_level : Int) (message : List Char) : List Char :=
  let msg_time := g_date_time_format_ts tval
  msg_time ++ GRIG_DEBUG_SEPARATOR ++ SRC_TO_STR source ++
  GRIG_DEBUG_SEPARATOR ++ sprintf_d debug_level ++ GRIG_DEBUG_SEPARATOR ++
  message ++ ['\n']

/-- `grig_debug_hamlib_cb` (`grig-debug.c` lines 118-161), the callback hamlib
invokes: if `debug_level > dbglvl` it returns `RIG_OK` at once; otherwise it
formats the message (`formatted` is the result of `g_strdup_vprintf`), chomps
trailing whitespace, splits at newlines and hands each line in order to
`manage_debug_message` with source `MSG_SRC_HAMLIB`.  Returns the C return
value paired with the records emitted. -/
def grig_debug_hamlib_cb (debug_level : Int) (formatted : List Char)
    (s : DebugState) : Int × List DebugRecord :=
  if debug_level > s.dbglvl then
    (RIG_OK, [])
  else
    let msg := g_strchomp formatted
    let msgv := g_strsplit_set msg
    (RIG_OK, msgv.map (fun line =>
      { source := MSG_SRC_HAMLIB, debug_level := debug_level,
        message := line }))

/-- `grig_debug_local` (`grig-debug.c` lines 165-211), the entry point grig
itself uses: identical pipeline, but the records carry source
`MSG_SRC_GRIG`. -/
def grig_debug_local (debug_level : Int) (formatted : List Char)
    (s : DebugState) : Int × List DebugRecord :=
  if debug_level > s.dbglvl then
    (RIG_OK, [])
  else
    let msg := g_strchomp formatted
    let msgv := g_strsplit_set msg
    (RIG_OK, msgv.map (fun line =>
      { source := MSG_SRC_GRIG, debug_level := debug_level,
        message := line }))

/-- The message `grig_debug_init` sends through `grig_debug_local`:
`_("%s: Debug handler initialised.")` with `__FUNCTION__` substituted. -/
def init_message : List Char :=
  "grig_debug_init: Debug handler initialised.".data

/-- The message `grig_debug_close` sends through `grig_debug_local`:
`_("%s: Shutting down debug handler.")` with `__FUNCTION__` substituted. -/
def close_message : List Char :=
  "grig_debug_close: Shutting down debug handler.".data

/-- `grig_debug_init` (`grig-debug.c` lines 76-92): the file-open branch for a
non-NULL `filename` is an empty FIXME stub (nothing is stored, `logfname` is
never assigned), the callback is registered with hamlib (external side
effect), and one VERBOSE readiness message is sent through
`grig_debug_local`.  Returns the new state paired with the records
emitted. -/
def grig_debug_init (filename : Option (List Char)) (s : DebugState) :
    DebugState × List DebugRecord :=
  let _ := filename
  (s, (grig_debug_local RIG_DEBUG_VERBOSE init_message s).2)

/-- `grig_debug_close` (`grig-debug.c` lines 100-113): sends one VERBOSE
shutdown message through `grig_debug_local`, then deregisters the callback
(external side effect); the log-file close is a stub comment. -/
def grig_debug_close (s : DebugState) : DebugState × List DebugRecord :=
  (s, (grig_debug_local RIG_DEBUG_VERBOSE close_message s).2)

/-- `grig_debug_get_log_file` (`grig-debug.c` lines 223-232): a copy of
`logfname` when it is non-NULL, otherwise NULL. -/
def grig_debug_get_log_file (s : DebugState) : Option (List Char) :=
  match s.logfname with
  | some fname => some fname
  | none => none

/-- `grig_debug_set_level` (`grig-debug.c` lines 260-268): stores `level`
into `dbglvl` (and forwards it to hamlib's `rig_set_debug`, an external side
effect) iff `RIG_DEBUG_NONE <= level <= RIG_DEBUG_TRACE`; otherwise the state
is untouched. -/
def grig_debug_set_level (level : Int) (s : DebugState) : DebugState :=
  if RIG_DEBUG_NONE ≤ level ∧ level ≤ RIG_DEBUG_TRACE then
    { s with dbglvl := level }
  else
    s

/-- `grig_debug_get_level` (`grig-debug.c` lines 270-274): the current
`dbglvl` as an `int`. -/
def grig_debug_get_level (s : DebugState) : Int :=
  s.dbglvl

/-- The stderr text produced by a list of records: `manage_debug_message` is
called once per record, in order, with the wall-clock time captured at each
call (modelled here with one `GDateTime` for the batch). -/
def stderr_of (t : GDateTime) (records : List DebugRecord) : List Char :=
  (records.map (fun r =>
    manage_debug_message t r.source r.debug_level r.message)).flatten

/-- Definition following the spec claim's words, for comparison with the
source's `g_strchomp`: "strips trailing newline characters" — removes
trailing `'\n'` characters only. -/
def strip_trailing_newlines (s : List Char) : List Char :=
  (s.reverse.dropWhile (fun c => c == '\n')).reverse

/-! Helper lemmas shared by the claim theorems. -/

lemma splitOnNl_ne_nil (s : List Char) : splitOnNl s ≠ [] := by
  cases s with
  | nil => simp [splitOnNl]
  | cons c rest =>
      rw [splitOnNl]
      by_cases h : c = '\n'
      · simp [h]
      · rw [if_neg h]
        cases splitOnNl rest <;> simp

lemma g_strsplit_set_ne_nil (s : List Char) (h : s ≠ []) :
    g_strsplit_set s ≠ [] := by
  rw [g_strsplit_set, if_neg h]
  exact splitOnNl_ne_nil s

lemma splitOnNl_append_nl (u : List Char) :
    splitOnNl (u ++ ['\n']) = splitOnNl u ++ [[]] := by
  induction u with
  | nil => simp [splitOnNl]
  | cons c rest ih =>
      by_cases h : c = '\n'
      · simp [splitOnNl, h, ih]
      · rw [List.cons_append, splitOnNl, if_neg h, ih, splitOnNl, if_neg h]
        cases hrest : splitOnNl rest with
        | nil => exact absurd hrest (splitOnNl_ne_nil rest)
        | cons t ts => simp

lemma g_strsplit_set_append_nl (u : List Char) (h : u ≠ []) :
    g_strsplit_set (u ++ ['\n']) = g_strsplit_set u ++ [[]] := by
  rw [g_strsplit_set, g_strsplit_set, if_neg h, if_neg (by simp)]
  exact splitOnNl_append_nl u

lemma grig_debug_hamlib_cb_pass (debug_level : Int) (formatted : List Char)
    (s : DebugState) (h : ¬ debug_level > s.dbglvl) :
    (grig_debug_hamlib_cb debug_level formatted s).2 =
      (g_strsplit_set (g_strchomp formatted)).map (fun line =>
        { source := MSG_SRC_HAMLIB, debug_level := debug_level,
          message := line }) := by
  simp [grig_debug_hamlib_cb, h]

lemma grig_debug_local_pass (debug_level : Int) (formatted : List Char)
    (s : DebugState) (h : ¬ debug_level > s.dbglvl) :
    (grig_debug_local debug_level formatted s).2 =
      (g_strsplit_set (g_strchomp formatted)).map (fun line =>
        { source := MSG_SRC_GRIG, debug_level := debug_level,
          message := line }) := by
  simp [grig_debug_local, h]

lemma map_message_mk (src : debug_msg_src_t) (debug_level : Int)
    (l : List (List Char)) :
    (l.map (fun line => (⟨src, debug_level, line⟩ : DebugRecord))).map
        DebugRecord.message = l := by
  rw [List.map_map]
  exact List.map_id l

/-- Claim C3: for a message passing the filter, the input `"line1\nline2\n"`
produces exactly two output records, one per line, with no third record from
the trailing newline after `g_strchomp` trimming, while `"line1\n\nline2"`
produces exactly three records, the middle one with empty message text — for
both the hamlib callback and the local entry point. -/
theorem grig_multiline_record_counts (lvl : Int) (s : DebugState)
    (h : lvl ≤ s.dbglvl) :
    ((grig_debug_hamlib_cb lvl ("line1\nline2\n".data) s).2.map
        DebugRecord.message = ["line1".data, "line2".data])
    ∧ ((grig_debug_hamlib_cb lvl ("line1\n\nline2".data) s).2.map
        DebugRecord.message = ["line1".data, [], "line2".data])
    ∧ ((grig_debug_local lvl ("line1\nline2\n".data) s).2.map
        DebugRecord.message = ["line1".data, "line2".data])
    ∧ ((grig_debug_local lvl ("line1\n\nline2".data) s).2.map
        DebugRecord.message = ["line1".data, [], "line2".data]) := by
  have h' : ¬ lvl > s.dbglvl := not_lt.mpr h
  refine ⟨?_, ?_, ?_, ?_⟩
  · rw [grig_debug_hamlib_cb_pass _ _ _ h', map_message_mk]
    decide
  · rw [grig_debug_hamlib_cb_pass _ _ _ h', map_message_mk]
    decide
  · rw [grig_debug_local_pass _ _ _ h', map_message_mk]
    decide
  · rw [grig_debug_local_pass _ _ _ h', map_message_mk]
    decide

/-- Witness for `grig_multiline_record_counts`: level ERR (1) against
threshold TRACE (5). -/
theorem grig_multiline_record_counts_witness :
    (1 : Int) ≤ DebugState.dbglvl ⟨5, none⟩
    ∧ ((grig_debug_hamlib_cb 1 ("line1\nline2\n".data) ⟨5, none⟩).2.map
        DebugRecord.message = ["line1".data, "line2".data])
    ∧ ((grig_debug_hamlib_cb 1 ("line1\n\nline2".data) ⟨5, none⟩).2.map
        DebugRecord.message = ["line1".data, [], "line2".data])
    ∧ ((grig_debug_local 1 ("line1\nline2\n".data) ⟨5, none⟩).2.map
        DebugRecord.message = ["line1".data, "line2".data])
    ∧ ((grig_debug_local 1 ("line1\n\nline2".data) ⟨5, none⟩).2.map
        DebugRecord.message = ["line1".data, [], "line2".data]) :=
  ⟨by decide, grig_multiline_record_counts 1 ⟨5, none⟩ (by decide)⟩

/-- Claim C8: `grig_debug_hamlib_cb` returns the success status `RIG_OK` to
hamlib on every call — both when the message is filtered out and when it is
processed — and never propagates an error across the callback boundary. -/
theorem grig_hamlib_cb_always_ok (debug_level : Int) (formatted : List Char)
    (s : DebugState) :
    (grig_debug_hamlib_cb debug_level formatted s).1 = RIG_OK := by
  unfold grig_debug_hamlib_cb
  split <;> rfl

/-- Claim C9: when the formatted message is empty after trailing-whitespace
trimming, zero records are emitted whatever the level and threshold, because
splitting the empty string yields an empty sequence of lines. -/
theorem grig_empty_message_no_records (debug_level : Int)
    (formatted : List Char) (s : DebugState)
    (h : g_strchomp formatted = []) :
    (grig_debug_hamlib_cb debug_level formatted s).2 = []
    ∧ (grig_debug_local debug_level formatted s).2 = []
    ∧ g_strsplit_set [] = [] := by
  refine ⟨?_, ?_, by decide⟩
  · by_cases hf : debug_level > s.dbglvl
    · simp [grig_debug_hamlib_cb, hf]
    · rw [grig_debug_hamlib_cb_pass _ _ _ hf, h]
      simp [g_strsplit_set]
  · by_cases hf : debug_level > s.dbglvl
    · simp [grig_debug_local, hf]
    · rw [grig_debug_local_pass _ _ _ hf, h]
      simp [g_strsplit_set]

/-- Witness for `grig_empty_message_no_records`: a message of two bare
newlines at level ERR against threshold TRACE chomps to empty and emits
nothing. -/
theorem grig_empty_message_no_records_witness :
    g_strchomp ("\n\n".data) = []
    ∧ (grig_debug_hamlib_cb 1 ("\n\n".data) ⟨5, none⟩).2 = [] :=
  ⟨by decide,
   (grig_empty_message_no_records 1 ("\n\n".data) ⟨5, none⟩ (by decide)).1⟩

/-- Counterexample to claim C1 as stated: with threshold TRACE (5) set via
`grig_debug_set_level`, a level-ERR call whose formatted message is the
non-empty string `" "` emits no output records at all — the message chomps to
empty before splitting, so "non-empty formatted message" does not guarantee
output. -/
theorem grig_level_filter_counterexample :
    (RIG_DEBUG_NONE ≤ (5 : Int) ∧ (5 : Int) ≤ RIG_DEBUG_TRACE)
    ∧ (1 : Int) ≤ 5
    ∧ (" ".data : List Char) ≠ []
    ∧ (grig_debug_hamlib_cb 1 (" ".data)
        (grig_debug_set_level 5 initial_state)).2 = []
    ∧ (grig_debug_local 1 (" ".data)
        (grig_debug_set_level 5 initial_state)).2 = [] := by
  decide

/-- Claim C1 (amended): for every threshold L set via `grig_debug_set_level`
within the valid range, a subsequent call with level numerically greater than
L emits no output records, and a call with level less than or equal to L
whose formatted message is non-empty after trailing-whitespace trimming emits
output — for both entry points. -/
theorem grig_level_filter (L lvl : Int) (formatted : List Char)
    (s : DebugState) (hL : RIG_DEBUG_NONE ≤ L ∧ L ≤ RIG_DEBUG_TRACE) :
    (lvl > L →
      (grig_debug_hamlib_cb lvl formatted (grig_debug_set_level L s)).2 = []
      ∧ (grig_debug_local lvl formatted (grig_debug_set_level L s)).2 = [])
    ∧ (lvl ≤ L → g_strchomp formatted ≠ [] →
      (grig_debug_hamlib_cb lvl formatted (grig_debug_set_level L s)).2 ≠ []
      ∧ (grig_debug_local lvl formatted (grig_debug_set_level L s)).2 ≠ []) := by
  have hs : grig_debug_set_level L s = { s with dbglvl := L } := by
    rw [grig_debug_set_level, if_pos hL]
  constructor
  · intro hgt
    rw [hs]
    exact ⟨by simp [grig_debug_hamlib_cb, hgt], by simp [grig_debug_local, hgt]⟩
  · intro hle hne
    rw [hs]
    have h' : ¬ lvl > ({ s with dbglvl := L } : DebugState).dbglvl := by
      simpa using not_lt.mpr hle
    constructor
    · rw [grig_debug_hamlib_cb_pass _ _ _ h']
      cases hsp : g_strsplit_set (g_strchomp formatted) with
      | nil => exact absurd hsp (g_strsplit_set_ne_nil _ hne)
      | cons a as => simp
    · rw [grig_debug_local_pass _ _ _ h']
      cases hsp : g_strsplit_set (g_strchomp formatted) with
      | nil => exact absurd hsp (g_strsplit_set_ne_nil _ hne)
      | cons a as => simp

/-- Witness for `grig_level_filter`: threshold WARN (2); a TRACE-side call at
level 3 emits nothing, an ERR call with message `"ok"` emits output. -/
theorem grig_level_filter_witness :
    (grig_debug_hamlib_cb 3 ("ok".data)
      (grig_debug_set_level 2 initial_state)).2 = []
    ∧ (grig_debug_local 1 ("ok".data)
      (grig_debug_set_level 2 initial_state)).2 ≠ [] :=
  ⟨((grig_level_filter 2 3 ("ok".data) initial_state (by decide)).1
      (by decide)).1,
   ((grig_level_filter 2 1 ("ok".data) initial_state (by decide)).2
      (by decide) (by decide)).2⟩

/-- Counterexample to claim C2 as stated: for the filter-passing message
`"hi "` (trailing space, no newline), the routed lines are not the result of
stripping only trailing newline characters and then splitting — the code
(`g_strchomp`) also removes the trailing space. -/
theorem grig_split_routing_counterexample :
    strip_trailing_newlines ("hi ".data) = "hi ".data
    ∧ g_strsplit_set (strip_trailing_newlines ("hi ".data)) = ["hi ".data]
    ∧ (grig_debug_hamlib_cb 1 ("hi ".data)
        (grig_debug_set_level 5 initial_state)).2.map DebugRecord.message
        = ["hi".data]
    ∧ (grig_debug_hamlib_cb 1 ("hi ".data)
        (grig_debug_set_level 5 initial_state)).2.map DebugRecord.message
        ≠ g_strsplit_set (strip_trailing_newlines ("hi ".data)) := by
  decide

/-- Claim C2 (amended): when the hamlib callback processes a message that
passes the filter, it strips trailing whitespace characters (including
newlines), splits the result on newline characters into an ordered sequence
of lines — under a split in which an empty trailing segment after a final
newline is preserved as a separate entry — and routes each line individually,
tagged with source `MSG_SRC_HAMLIB` and the original level, to the line
emitter. -/
theorem grig_split_routing (lvl : Int) (formatted : List Char)
    (s : DebugState) (h : lvl ≤ s.dbglvl) :
    ((grig_debug_hamlib_cb lvl formatted s).2.map DebugRecord.message
      = g_strsplit_set (g_strchomp formatted))
    ∧ (∀ r ∈ (grig_debug_hamlib_cb lvl formatted s).2,
        r.source = MSG_SRC_HAMLIB ∧ r.debug_level = lvl)
    ∧ (∀ u : List Char, u ≠ [] →
        g_strsplit_set (u ++ ['\n']) = g_strsplit_set u ++ [[]]) := by
  have h' : ¬ lvl > s.dbglvl := not_lt.mpr h
  refine ⟨?_, ?_, fun u hu => g_strsplit_set_append_nl u hu⟩
  · rw [grig_debug_hamlib_cb_pass _ _ _ h', map_message_mk]
  · rw [grig_debug_hamlib_cb_pass _ _ _ h']
    intro r hr
    rcases List.mem_map.mp hr with ⟨line, hline, rfl⟩
    exact ⟨rfl, rfl⟩

/-- Witness for `grig_split_routing`: level ERR against threshold TRACE on
the message `"a\nb\n"`. -/
theorem grig_split_routing_witness :
    (1 : Int) ≤ DebugState.dbglvl ⟨5, none⟩
    ∧ ((grig_debug_hamlib_cb 1 ("a\nb\n".data) ⟨5, none⟩).2.map
        DebugRecord.message = g_strsplit_set (g_strchomp ("a\nb\n".data))) :=
  ⟨by decide, (grig_split_routing 1 ("a\nb\n".data) ⟨5, none⟩ (by decide)).1⟩

/-- Claim C4: `grig_debug_set_level` updates the threshold iff the value lies
within the valid range `RIG_DEBUG_NONE .. RIG_DEBUG_TRACE` (observed via
`grig_debug_get_level`); an out-of-range value leaves the whole state
untouched, so a valid threshold stays valid after any call. -/
theorem grig_set_level_range (v : Int) (s : DebugState) :
    ((RIG_DEBUG_NONE ≤ v ∧ v ≤ RIG_DEBUG_TRACE) →
      grig_debug_get_level (grig_debug_set_level v s) = v)
    ∧ (¬ (RIG_DEBUG_NONE ≤ v ∧ v ≤ RIG_DEBUG_TRACE) →
      grig_debug_set_level v s = s)
    ∧ ((RIG_DEBUG_NONE ≤ grig_debug_get_level s ∧
        grig_debug_get_level s ≤ RIG_DEBUG_TRACE) →
      RIG_DEBUG_NONE ≤ grig_debug_get_level (grig_debug_set_level v s) ∧
      grig_debug_get_level (grig_debug_set_level v s) ≤ RIG_DEBUG_TRACE) := by
  refine ⟨fun h => ?_, fun h => ?_, fun h => ?_⟩
  · rw [grig_debug_set_level, if_pos h]
    rfl
  · rw [grig_debug_set_level, if_neg h]
  · by_cases hv : RIG_DEBUG_NONE ≤ v ∧ v ≤ RIG_DEBUG_TRACE
    · rw [grig_debug_set_level, if_pos hv]
      exact hv
    · rw [grig_debug_set_level, if_neg hv]
      exact h

/-- Witness for `grig_set_level_range`: 5 is accepted and observed via
`grig_debug_get_level`; 7 is out of range and leaves the state unchanged. -/
theorem grig_set_level_range_witness :
    grig_debug_get_level (grig_debug_set_level 5 initial_state) = 5
    ∧ grig_debug_set_level 7 initial_state = initial_state :=
  ⟨(grig_set_level_range 5 initial_state).1 (by decide),
   (grig_set_level_range 7 initial_state).2.1 (by decide)⟩

lemma grig_debug_init_state (fn : Option (List Char)) (s : DebugState) :
    (grig_debug_init fn s).1 = s := rfl

lemma grig_debug_init_records (fn : Option (List Char)) (s : DebugState) :
    (grig_debug_init fn s).2 =
      (grig_debug_local RIG_DEBUG_VERBOSE init_message s).2 := rfl

lemma grig_debug_close_records (s : DebugState) :
    (grig_debug_close s).2 =
      (grig_debug_local RIG_DEBUG_VERBOSE close_message s).2 := rfl

lemma stderr_of_single (t : GDateTime) (r : DebugRecord) :
    stderr_of t [r] =
      manage_debug_message t r.source r.debug_level r.message := by
  simp [stderr_of]

lemma manage_grig_err_line (t : GDateTime) :
    manage_debug_message t MSG_SRC_GRIG RIG_DEBUG_ERR
      ("device TS-2000 not found".data) =
    g_date_time_format_ts t ++ "|GRIG|1|device TS-2000 not found\n".data := by
  show g_date_time_format_ts t ++ GRIG_DEBUG_SEPARATOR ++
      SRC_TO_STR MSG_SRC_GRIG ++ GRIG_DEBUG_SEPARATOR ++
      sprintf_d RIG_DEBUG_ERR ++ GRIG_DEBUG_SEPARATOR ++
      ("device TS-2000 not found".data) ++ ['\n'] = _
  simp only [List.append_assoc]
  exact congrArg _ (by decide)

/-- Claim C5 evidence: `grig_debug_init` called with a log-file path never
stores it — the file-open branch of the source is an empty FIXME stub and
`logfname` is never assigned — so `grig_debug_get_log_file` afterwards
returns none instead of the configured path, contradicting the source's own
doc comments. -/
theorem grig_get_log_file_stub :
    (∀ (fn : List Char) (s : DebugState),
      grig_debug_get_log_file ((grig_debug_init (some fn) s).1) =
        grig_debug_get_log_file s)
    ∧ grig_debug_get_log_file
        ((grig_debug_init (some ("grig.log".data)) initial_state).1) = none := by
  exact ⟨fun fn s => rfl, rfl⟩

/-- Claim C6: `grig_debug_init` immediately followed by `grig_debug_close`
produces exactly the two internally generated VERBOSE records (the
"initialised" one, then the "shutting down" one) when the configured
threshold is at or above VERBOSE, and no records when it is below. -/
theorem grig_init_close_records (fn : Option (List Char)) (s : DebugState) :
    (grig_debug_init fn s).2
      ++ (grig_debug_close ((grig_debug_init fn s).1)).2 =
    (if RIG_DEBUG_VERBOSE ≤ s.dbglvl then
      [⟨MSG_SRC_GRIG, RIG_DEBUG_VERBOSE, init_message⟩,
       ⟨MSG_SRC_GRIG, RIG_DEBUG_VERBOSE, close_message⟩]
    else []) := by
  rw [grig_debug_init_records, grig_debug_init_state, grig_debug_close_records]
  by_cases h : RIG_DEBUG_VERBOSE ≤ s.dbglvl
  · rw [if_pos h]
    have h' : ¬ RIG_DEBUG_VERBOSE > s.dbglvl := not_lt.mpr h
    rw [grig_debug_local_pass _ _ _ h', grig_debug_local_pass _ _ _ h']
    decide
  · rw [if_neg h]
    have h' : RIG_DEBUG_VERBOSE > s.dbglvl := not_le.mp h
    simp [grig_debug_local, h']

/-- Claim C7: every emitted record is written to stderr as a single
newline-terminated line of the form
time SEP source-name SEP level SEP message, the timestamp formatted
`YYYY/MM/DD HH:MM:SS` and the source name drawn from NONE/HAMLIB/GRIG; and
the spec's end-to-end example — `log` at level ERR with message
"device TS-2000 not found" under threshold WARN — yields exactly one stderr
record `time|GRIG|1|device TS-2000 not found`. -/
theorem grig_record_format (t : GDateTime) (src : debug_msg_src_t)
    (lvl : Int) (msg : List Char) :
    (manage_debug_message t src lvl msg =
      g_date_time_format_ts t ++ GRIG_DEBUG_SEPARATOR ++ SRC_TO_STR src ++
      GRIG_DEBUG_SEPARATOR ++ sprintf_d lvl ++ GRIG_DEBUG_SEPARATOR ++
      msg ++ ['\n'])
    ∧ (SRC_TO_STR src = "NONE".data ∨ SRC_TO_STR src = "HAMLIB".data ∨
        SRC_TO_STR src = "GRIG".data)
    ∧ g_date_time_format_ts ⟨2007, 3, 7, 4, 5, 6⟩ = "2007/03/07 04:05:06".data
    ∧ (grig_debug_local RIG_DEBUG_ERR ("device TS-2000 not found".data)
        (grig_debug_set_level RIG_DEBUG_WARN initial_state)).2.length = 1
    ∧ stderr_of t (grig_debug_local RIG_DEBUG_ERR
        ("device TS-2000 not found".data)
        (grig_debug_set_level RIG_DEBUG_WARN initial_state)).2 =
      g_date_time_format_ts t ++ "|GRIG|1|device TS-2000 not found\n".data := by
  refine ⟨rfl, ?_, by decide, by decide, ?_⟩
  · cases src
    · exact Or.inl rfl
    · exact Or.inr (Or.inl rfl)
    · exact Or.inr (Or.inr rfl)
  · have hrec : (grig_debug_local RIG_DEBUG_ERR
        ("device TS-2000 not found".data)
        (grig_debug_set_level RIG_DEBUG_WARN initial_state)).2 =
        [⟨MSG_SRC_GRIG, RIG_DEBUG_ERR, "device TS-2000 not found".data⟩] := by
      decide
    rw [hrec, stderr_of_single]
    exact manage_grig_err_line t

/-- Counterexample to claim C10 as stated: at the initial state (threshold
`RIG_DEBUG_NONE` = 0), a message at level NONE itself satisfies
`level ≤ threshold`, passes the filter and is emitted — so not every message
is suppressed before the first `grig_debug_set_level` call. -/
theorem grig_initial_suppression_counterexample :
    initial_state.dbglvl = RIG_DEBUG_NONE
    ∧ (grig_debug_local RIG_DEBUG_NONE ("x".data) initial_state).2
        = [⟨MSG_SRC_GRIG, RIG_DEBUG_NONE, "x".data⟩]
    ∧ (grig_debug_local RIG_DEBUG_NONE ("x".data) initial_state).2 ≠ [] := by
  decide

/-- Claim C10 (amended): the initial process-wide threshold is
`RIG_DEBUG_NONE` (0), so before any `grig_debug_set_level` call every message
with level strictly greater than NONE is suppressed — including the VERBOSE
initialisation confirmation emitted by `grig_debug_init` and the VERBOSE
shutdown confirmation from `grig_debug_close`; only a message at level NONE
itself would pass the filter. -/
theorem grig_initial_suppression (lvl : Int) (formatted : List Char)
    (fn : Option (List Char)) (h : RIG_DEBUG_NONE < lvl) :
    initial_state.dbglvl = RIG_DEBUG_NONE
    ∧ (grig_debug_hamlib_cb lvl formatted initial_state).2 = []
    ∧ (grig_debug_local lvl formatted initial_state).2 = []
    ∧ (grig_debug_init fn initial_state).2 = []
    ∧ (grig_debug_close initial_state).2 = [] := by
  have h0 : lvl > initial_state.dbglvl := h
  have hv : RIG_DEBUG_VERBOSE > initial_state.dbglvl := by decide
  refine ⟨rfl, ?_, ?_, ?_, ?_⟩
  · simp [grig_debug_hamlib_cb, h0]
  · simp [grig_debug_local, h0]
  · rw [grig_debug_init_records]
    simp [grig_debug_local, hv]
  · rw [grig_debug_close_records]
    simp [grig_debug_local, hv]

/-- Witness for `grig_initial_suppression`: level 3 with message `"abc"`. -/
theorem grig_initial_suppression_witness :
    RIG_DEBUG_NONE < (3 : Int)
    ∧ (grig_debug_hamlib_cb 3 ("abc".data) initial_state).2 = []
    ∧ (grig_debug_local 3 ("abc".data) initial_state).2 = []
    ∧ (grig_debug_init none initial_state).2 = []
    ∧ (grig_debug_close initial_state).2 = [] :=
  ⟨by decide, (grig_initial_suppression 3 ("abc".data) none (by decide)).2⟩
